import Mathlib

/-!
Verification of the e-commerce search evaluation pipeline.

This file gives a shallow embedding of the pure logic of the repository's
Python modules (llm_evaluator.py and scraper.py) and proves, or refutes,
the frozen specification claims about them.  Python dictionaries with a
known key set are embedded as structures with optional fields (a missing
key is `none`); machine integers are `Nat`; fallible operations return
`Option`; the stateful HTTP retry loop is embedded as a function of an
attempt-outcome oracle.
-/

/-! ## Character and string utilities (embedding Python regex/str primitives) -/

/-- Whitespace class of the Python regex `\s` (ASCII range), as used by
`re.sub(r'\s+', ' ', query)`, `.strip()` and `.split()` in llm_evaluator.py. -/
def ws_char (c : Char) : Bool :=
  c = ' ' || c = '\t' || c = '\n' || c = '\r' || c = '\x0b' || c = '\x0c'

/-- Substring test: `containsSub pat l` is true iff `pat` occurs contiguously in
`l`.  This embeds Python's `pat in s` on strings. -/
def containsSub (pat : List Char) : List Char → Bool
  | [] => pat.isEmpty
  | c :: r => pat.isPrefixOf (c :: r) || containsSub pat r

/-- Embedding of `re.sub(r'\s+', ' ', _)`: collapse every maximal whitespace run
to a single space.  The flag records whether the previous character was
whitespace (i.e. whether we are inside a run that has already emitted its space). -/
def collapseWsAux : Bool → List Char → List Char
  | _, [] => []
  | prevWs, c :: r =>
    if ws_char c then
      (if prevWs then collapseWsAux true r else ' ' :: collapseWsAux true r)
    else c :: collapseWsAux false r

/-- Embedding of Python `str.strip()`: drop whitespace from both ends. -/
def stripWs (l : List Char) : List Char :=
  ((l.dropWhile ws_char).reverse.dropWhile ws_char).reverse

/-- Worker for `splitWords`; `acc` holds the (reversed) current word. -/
def splitWordsAux : List Char → List Char → List (List Char)
  | [], acc => if acc.isEmpty then [] else [acc.reverse]
  | c :: r, acc =>
    if ws_char c then
      (if acc.isEmpty then splitWordsAux r [] else acc.reverse :: splitWordsAux r [])
    else splitWordsAux r (c :: acc)

/-- Embedding of Python `str.split()` with no argument: the maximal nonempty
runs of non-whitespace characters. -/
def splitWords (l : List Char) : List (List Char) := splitWordsAux l []

/-- Character class of the part-number regex in classify_search_type
(llm_evaluator.py line 34): a decimal digit, a hyphen, or a slash. -/
def part_number_char (c : Char) : Bool := c.isDigit || c = '-' || c = '/'

/-- Embedding of classify_search_type (llm_evaluator.py lines 16-38):
normalize whitespace and split; more than one word gives "multiple_terms";
otherwise a digit, hyphen or slash anywhere in the original query gives
"part_number"; otherwise "english_word". -/
def classify_search_type (query : String) : String :=
  let normalized_query := stripWs (collapseWsAux false query.toList)
  let words := splitWords normalized_query
  if words.length > 1 then "multiple_terms"
  else if query.toList.any part_number_char then "part_number"
  else "english_word"

/-- Embedding of `re.search(r'(\d+)', s)`: the first maximal run of decimal
digits in `s`, if any. -/
def firstDigitRun : List Char → Option (List Char)
  | [] => none
  | c :: r => if c.isDigit then some (c :: r.takeWhile Char.isDigit) else firstDigitRun r

/-- Decimal value of a digit run, embedding Python `int(...)` on the matched group. -/
def digitsToNat (ds : List Char) : Nat := ds.foldl (fun n c => n * 10 + (c.toNat - 48)) 0

/-- Embedding of Python `str.lower()` (ASCII case folding, which is all the
inventory keywords need). -/
def lowerList (l : List Char) : List Char := l.map Char.toLower

/-- Embedding of parse_inventory_quantity (llm_evaluator.py lines 177-210).
Empty or "N/A" input is Unknown; otherwise the first digit run decides the
status by thresholds 0 and 5; otherwise keyword matching on the lowercased
string; otherwise Unknown.  The `"0"` keyword from the source's first keyword
list is kept even though it is unreachable (a string with no digit run
contains no '0'). -/
def parse_inventory_quantity (quantity_str : String) : Nat × String :=
  if quantity_str = "" || quantity_str = "N/A" then (0, "Unknown")
  else
    match firstDigitRun quantity_str.toList with
    | some ds =>
      let qty := digitsToNat ds
      if qty = 0 then (0, "Out of Stock")
      else if qty < 5 then (qty, "Low Stock")
      else (qty, "Available")
    | none =>
      let quantity_lower := lowerList quantity_str.toList
      if containsSub "out of stock".toList quantity_lower
          || containsSub "unavailable".toList quantity_lower
          || containsSub "0".toList quantity_lower then (0, "Out of Stock")
      else if containsSub "low stock".toList quantity_lower
          || containsSub "limited".toList quantity_lower then (1, "Low Stock")
      else if containsSub "in stock".toList quantity_lower
          || containsSub "available".toList quantity_lower then (999, "Available")
      else (0, "Unknown")

/-! ## Data model of the ranking stage (llm_evaluator.py lines 213-262) -/

/-- A scraped product entry: the dictionary built by scraper.py with its
fixed key set; a missing key is `none`.  apply_inventory_aware_ranking only
consults the quantity field, via `.get('quantity', 'N/A')`. -/
structure ProductEntry where
  title : Option String := none
  part_number : Option String := none
  url : Option String := none
  price : Option String := none
  quantity : Option String := none
deriving DecidableEq

/-- An evaluation record: the per-result dictionary inside the model's
"evaluations" array, restricted to the keys the ranking stage reads and
writes.  parsed_quantity and inventory_status_parsed are absent (`none`)
until add_inventory_data sets them. -/
structure EvalRecord where
  relevance : Option String := none
  result_index : Option Nat := none
  parsed_quantity : Option Nat := none
  inventory_status_parsed : Option String := none
deriving DecidableEq

/-- The sort key `x["parsed_quantity"]`; the default 0 is never consulted on
records that have passed through add_inventory_data. -/
def parsedQty (e : EvalRecord) : Nat := e.parsed_quantity.getD 0

/-- Embedding of `eval_item.get("relevance", "Low")` (llm_evaluator.py line 229). -/
def relevanceOf (e : EvalRecord) : String := e.relevance.getD "Low"

/-- Embedding of the per-record inventory annotation (llm_evaluator.py lines
231-243): look up the original entry at result_index (default 0); in range,
parse its quantity string (default "N/A"); out of range, set quantity 0 and
status "Unknown". -/
def add_inventory_data (original_results : List ProductEntry) (e : EvalRecord) : EvalRecord :=
  let result_index := e.result_index.getD 0
  if h : result_index < original_results.length then
    let original_result := original_results.get ⟨result_index, h⟩
    let p := parse_inventory_quantity (original_result.quantity.getD "N/A")
    { e with parsed_quantity := some p.1, inventory_status_parsed := some p.2 }
  else
    { e with parsed_quantity := some 0, inventory_status_parsed := some "Unknown" }

/-- Order used inside a relevance bucket: x may precede y iff x's parsed
quantity is at least y's (descending). -/
def inventoryLe (x y : EvalRecord) : Prop := parsedQty y ≤ parsedQty x

instance : DecidableRel inventoryLe :=
  fun x y => inferInstanceAs (Decidable (parsedQty y ≤ parsedQty x))

instance : IsTotal EvalRecord inventoryLe :=
  ⟨fun a b => Nat.le_total (parsedQty b) (parsedQty a)⟩

instance : IsTrans EvalRecord inventoryLe :=
  ⟨fun _ _ _ hab hbc => Nat.le_trans hbc hab⟩

/-- Embedding of `list.sort(key=lambda x: x["parsed_quantity"], reverse=True)`
(llm_evaluator.py lines 249-253).  Python's sort is stable and reverse=True
preserves stability, so the call is the unique stable descending sort by
parsed quantity; insertion sort with `inventoryLe` computes exactly that. -/
def sortByQuantityDesc (l : List EvalRecord) : List EvalRecord :=
  List.insertionSort inventoryLe l

/-- Embedding of apply_inventory_aware_ranking (llm_evaluator.py lines 213-262):
annotate every record with inventory data, group by the relevance label into
the three buckets (a record whose label is none of "High", "Medium", "Low"
after the "Low" default joins no bucket), sort each bucket by quantity
descending, and concatenate High, Medium, Low. -/
def apply_inventory_aware_ranking (evaluations : List EvalRecord)
    (original_results : List ProductEntry) : List EvalRecord :=
  let annotated := evaluations.map (add_inventory_data original_results)
  let high := annotated.filter (fun e => relevanceOf e == "High")
  let medium := annotated.filter (fun e => relevanceOf e == "Medium")
  let low := annotated.filter (fun e => relevanceOf e == "Low")
  sortByQuantityDesc high ++ sortByQuantityDesc medium ++ sortByQuantityDesc low

/-! ## Response dictionaries and the Ollama retry loop (llm_evaluator.py lines 265-307) -/

/-- The response dictionary seen by parse_enhanced_llm_response: either the
decoded body of a 200 reply (whose generated text sits under the "response"
key) or the failure marker built by query_ollama (an "error" key).  A missing
key is `none`. -/
structure LLMResponse where
  error : Option String := none
  response : Option String := none
deriving DecidableEq

/-- Outcome of a single HTTP attempt: a 200 reply with decoded body, a non-200
status, or a raised transport error (requests.exceptions.RequestException). -/
inductive AttemptOutcome where
  | success (body : LLMResponse)
  | httpError (status : Nat) (text : String)
  | transportError (message : String)

/-- True exactly on a 200 reply. -/
def AttemptOutcome.isSuccess : AttemptOutcome → Bool
  | .success _ => true
  | _ => false

/-- Worker for the retry loop: `i` is the index of the next attempt,
`remaining` how many attempts are still allowed.  Returns the response
dictionary together with the number of requests actually sent. -/
def query_ollama_go (attempts : Nat → AttemptOutcome) (max_retries : Nat) :
    Nat → Nat → LLMResponse × Nat
  | _, 0 => ({ error := some ("Failed after " ++ toString max_retries ++ " attempts") }, 0)
  | i, remaining + 1 =>
    match attempts i with
    | .success body => (body, 1)
    | _ =>
      let r := query_ollama_go attempts max_retries (i + 1) remaining
      (r.1, r.2 + 1)

/-- Embedding of query_ollama (llm_evaluator.py lines 265-307): one request per
attempt, up to max_retries attempts; the first 200 reply is returned decoded;
a non-200 status or transport error is swallowed and retried; exhaustion
returns the failure marker carrying the attempt count.  The network is
embedded as an oracle giving the outcome of the i-th attempt; the second
component counts requests sent. -/
def query_ollama (attempts : Nat → AttemptOutcome) (max_retries : Nat) : LLMResponse × Nat :=
  query_ollama_go attempts max_retries 0 max_retries

/-! ## JSON values and a model of json.loads (used by parse_enhanced_llm_response) -/

/-- JSON values as produced by json.loads.  Numbers keep their integer part;
the parser consumes fraction and exponent syntax but their value is never
consulted by the pipeline. -/
inductive Json where
  | null
  | bool (b : Bool)
  | num (n : Int)
  | str (s : String)
  | arr (elems : List Json)
  | obj (fields : List (String × Json))

/-- JSON insignificant whitespace (space, tab, newline, carriage return). -/
def json_ws (c : Char) : Bool := c = ' ' || c = '\t' || c = '\n' || c = '\r'

/-- Skip insignificant whitespace. -/
def skipJsonWs (l : List Char) : List Char := l.dropWhile json_ws

/-- Value of a hexadecimal digit. -/
def hexVal (c : Char) : Option Nat :=
  if c.isDigit then some (c.toNat - 48)
  else if c ≥ 'a' && c ≤ 'f' then some (c.toNat - 87)
  else if c ≥ 'A' && c ≤ 'F' then some (c.toNat - 55)
  else none

/-- Body of a JSON string literal after the opening quote: the decoded
characters and the input following the closing quote. -/
def parseStringBody : Nat → List Char → Option (List Char × List Char)
  | 0, _ => none
  | _, [] => none
  | fuel + 1, c :: r =>
    if c = '"' then some ([], r)
    else if c = '\x5c' then
      match r with
      | [] => none
      | e :: r2 =>
        if e = 'u' then
          match r2 with
          | h1 :: h2 :: h3 :: h4 :: r3 =>
            match hexVal h1, hexVal h2, hexVal h3, hexVal h4 with
            | some a, some b, some c2, some d =>
              let code := ((a * 16 + b) * 16 + c2) * 16 + d
              match parseStringBody fuel r3 with
              | some (cs, rest) => some (Char.ofNat code :: cs, rest)
              | none => none
            | _, _, _, _ => none
          | _ => none
        else
          let dec : Option Char :=
            if e = '"' then some '"'
            else if e = '\x5c' then some '\x5c'
            else if e = '/' then some '/'
            else if e = 'b' then some '\x08'
            else if e = 'f' then some '\x0c'
            else if e = 'n' then some '\n'
            else if e = 'r' then some '\r'
            else if e = 't' then some '\t'
            else none
          match dec with
          | some d =>
            match parseStringBody fuel r2 with
            | some (cs, rest) => some (d :: cs, rest)
            | none => none
          | none => none
    else
      match parseStringBody fuel r with
      | some (cs, rest) => some (c :: cs, rest)
      | none => none

/-- A JSON number starting at the given input (first char is a minus sign or a
digit): its integer part, with fraction and exponent consumed syntactically. -/
def parseJsonNumber (l : List Char) : Option (Int × List Char) :=
  let sgn : Option (Bool × List Char) :=
    match l with
    | '-' :: r => some (true, r)
    | _ => some (false, l)
  match sgn with
  | some (neg, l1) =>
    let ds := l1.takeWhile Char.isDigit
    if ds.isEmpty then none
    else
      let n : Int := Int.ofNat (digitsToNat ds)
      let rest1 := l1.drop ds.length
      let afterFrac : Option (List Char) :=
        match rest1 with
        | '.' :: r =>
          let fs := r.takeWhile Char.isDigit
          if fs.isEmpty then none else some (r.drop fs.length)
        | _ => some rest1
      match afterFrac with
      | none => none
      | some rest2 =>
        let afterExp : Option (List Char) :=
          match rest2 with
          | e :: r =>
            if e = 'e' || e = 'E' then
              let r1 := match r with
                | s :: r2 => if s = '+' || s = '-' then r2 else r
                | [] => r
              let es := r1.takeWhile Char.isDigit
              if es.isEmpty then none else some (r1.drop es.length)
            else some rest2
          | [] => some rest2
        match afterExp with
        | none => none
        | some rest3 => some (if neg then -n else n, rest3)
  | none => none

/-- Parsing mode of the json.loads model: a single value, the members of an
object (after the opening brace or a comma), or the elements of an array. -/
inductive JMode where
  | value
  | members (first : Bool)
  | elements (first : Bool)

/-- Result of one parsing step, shaped by the mode. -/
inductive JOut where
  | value (v : Json)
  | fields (fs : List (String × Json))
  | elements (vs : List Json)

/-- Recursive-descent model of json.loads, fuel-indexed so that it is
structurally recursive.  In value mode it parses one JSON value after
whitespace; members and elements modes parse the interiors of objects and
arrays (when `first` is false a comma was just consumed, so an immediate
closer is rejected, matching json.loads' rejection of trailing commas). -/
def parseJsonCore : Nat → JMode → List Char → Option (JOut × List Char)
  | 0, _, _ => none
  | fuel + 1, .value, l =>
    (match skipJsonWs l with
    | [] => none
    | c :: r =>
      if c = '\x7b' then
        match parseJsonCore fuel (.members true) r with
        | some (.fields fs, rest) => some (.value (.obj fs), rest)
        | _ => none
      else if c = '[' then
        match parseJsonCore fuel (.elements true) r with
        | some (.elements vs, rest) => some (.value (.arr vs), rest)
        | _ => none
      else if c = '"' then
        match parseStringBody (r.length + 1) r with
        | some (cs, rest) => some (.value (.str (String.mk cs)), rest)
        | none => none
      else if c = 't' then
        if "rue".toList.isPrefixOf r then some (.value (.bool true), r.drop 3) else none
      else if c = 'f' then
        if "alse".toList.isPrefixOf r then some (.value (.bool false), r.drop 4) else none
      else if c = 'n' then
        if "ull".toList.isPrefixOf r then some (.value .null, r.drop 3) else none
      else if c = '-' || c.isDigit then
        match parseJsonNumber (c :: r) with
        | some (n, rest) => some (.value (.num n), rest)
        | none => none
      else none)
  | fuel + 1, .members first, l =>
    (match skipJsonWs l with
    | '\x7d' :: rest => if first then some (.fields [], rest) else none
    | '"' :: r =>
      match parseStringBody (r.length + 1) r with
      | some (key, r2) =>
        match skipJsonWs r2 with
        | ':' :: r3 =>
          match parseJsonCore fuel .value r3 with
          | some (.value v, r4) =>
            (match skipJsonWs r4 with
            | ',' :: r5 =>
              match parseJsonCore fuel (.members false) r5 with
              | some (.fields fs, rest) => some (.fields ((String.mk key, v) :: fs), rest)
              | _ => none
            | '\x7d' :: r5 => some (.fields [(String.mk key, v)], r5)
            | _ => none)
          | _ => none
        | _ => none
      | none => none
    | _ => none)
  | fuel + 1, .elements first, l =>
    (match skipJsonWs l with
    | ']' :: rest => if first then some (.elements [], rest) else none
    | l1 =>
      match parseJsonCore fuel .value l1 with
      | some (.value v, r) =>
        (match skipJsonWs r with
        | ',' :: r2 =>
          match parseJsonCore fuel (.elements false) r2 with
          | some (.elements vs, rest) => some (.elements (v :: vs), rest)
          | _ => none
        | ']' :: r2 => some (.elements [v], r2)
        | _ => none)
      | _ => none)

/-- Parse one JSON value and return it with the remaining input. -/
def parseJsonVal (fuel : Nat) (l : List Char) : Option (Json × List Char) :=
  match parseJsonCore fuel .value l with
  | some (.value v, rest) => some (v, rest)
  | _ => none

/-- Model of json.loads on a whole document: one value, with only whitespace
allowed after it. -/
def jsonParse (s : String) : Option Json :=
  match parseJsonVal (s.length * 2 + 4) s.toList with
  | some (v, rest) => if (skipJsonWs rest).isEmpty then some v else none
  | none => none

/-! ## Locating the JSON block (llm_evaluator.py lines 321-327) -/

/-- The literal anchor the extraction regex requires, quotes included. -/
def evaluationsAnchor : List Char := "\"evaluations\"".toList

/-- Shortest extension of the lazy tail of the regex: everything up to and
including the first closing brace. -/
def upToCloseBrace : List Char → Option (List Char)
  | [] => none
  | c :: r =>
    if c = '\x7d' then some [c]
    else
      match upToCloseBrace r with
      | some seg => some (c :: seg)
      | none => none

/-- Lazy search for the anchor followed by a closing brace: the earliest
anchor occurrence is tried first, and a later one only if no closing brace
follows the earlier one, mirroring regex backtracking. -/
def matchAfterBrace : List Char → Option (List Char)
  | [] => none
  | c :: r =>
    if evaluationsAnchor.isPrefixOf (c :: r) then
      match upToCloseBrace ((c :: r).drop evaluationsAnchor.length) with
      | some seg => some (evaluationsAnchor ++ seg)
      | none =>
        match matchAfterBrace r with
        | some t => some (c :: t)
        | none => none
    else
      match matchAfterBrace r with
      | some t => some (c :: t)
      | none => none

/-- Embedding of the search for the lazy pattern that captures a brace, then
lazily anything up to the literal "evaluations" anchor, then lazily anything
up to a closing brace (llm_evaluator.py line 322).  Leftmost match wins: the
capture runs from the first opening brace that is followed by the anchor and a
closing brace, to the first closing brace after that anchor. -/
def find_json_block : List Char → Option (List Char)
  | [] => none
  | c :: r =>
    if c = '\x7b' then
      match matchAfterBrace r with
      | some seg => some (c :: seg)
      | none => find_json_block r
    else find_json_block r

/-- Test for the regex context of the trailing-comma cleanup: optional
whitespace and then a closing brace or bracket. -/
def wsThenClose (l : List Char) : Bool :=
  match l.dropWhile ws_char with
  | c :: _ => c = '\x7d' || c = ']'
  | [] => false

/-- Embedding of the trailing-comma cleanup (llm_evaluator.py line 327): every
comma followed by optional whitespace and a closing brace or bracket is
deleted, keeping the whitespace and the closer. -/
def stripTrailingCommas : List Char → List Char
  | [] => []
  | c :: r =>
    if c = ',' && wsThenClose r then stripTrailingCommas r
    else c :: stripTrailingCommas r

/-- Embedding of parse_enhanced_llm_response (llm_evaluator.py lines 310-342):
a response dictionary carrying an "error" key yields None; otherwise the JSON
block is located in the generated text by the lazy regex, trailing commas are
stripped, and the result of json.loads is returned, with any parse failure
yielding None. -/
def parse_enhanced_llm_response (response : LLMResponse) : Option Json :=
  match response.error with
  | some _ => none
  | none =>
    let generated_text := (response.response.getD "").toList
    match find_json_block generated_text with
    | some json_chars => jsonParse (String.mk (stripTrailingCommas json_chars))
    | none => none

/-! ## The evaluation wrapper (llm_evaluator.py lines 345-414) -/

/-- Dictionary lookup on a parsed JSON object (later duplicate keys win, as in
Python dicts built by json.loads); None on other value shapes. -/
def jget (j : Json) (key : String) : Option Json :=
  match j with
  | .obj fields => ((fields.filter (fun p => p.1 == key)).getLast?).map (fun p => p.2)
  | _ => none

/-- Projection of one parsed evaluation object to the typed record: the string
value under "relevance" and the number under "result_index", when present with
those shapes (the only shapes the pipeline reads downstream). -/
def decodeEvalRecord (j : Json) : EvalRecord :=
  { relevance :=
      match jget j "relevance" with
      | some (.str s) => some s
      | _ => none,
    result_index :=
      match jget j "result_index" with
      | some (.num n) => some n.toNat
      | _ => none }

/-- Embedding of `parsed_evaluations.get("evaluations", [])`. -/
def payloadEvaluations (payload : Json) : List EvalRecord :=
  match jget payload "evaluations" with
  | some (.arr xs) => xs.map decodeEvalRecord
  | _ => []

/-- Embedding of `parsed_evaluations.get("ranking_summary", "")`. -/
def payloadRankingSummary (payload : Json) : String :=
  match jget payload "ranking_summary" with
  | some (.str s) => s
  | _ => ""

/-- Python truthiness of a JSON value, for `if parsed_evaluations:`. -/
def jsonTruthy : Json → Bool
  | .null => false
  | .bool b => b
  | .num n => n != 0
  | .str s => !(s == "")
  | .arr xs => !xs.isEmpty
  | .obj fs => !fs.isEmpty

/-- The record returned by evaluate_search_results_with_inventory; a missing
key ("error" on success, "ranking_summary" on failure) is `none`. -/
structure EvalOutcome where
  query : String
  search_type : String
  model_used : String
  evaluations : List EvalRecord
  ranking_summary : Option String
  inventory_aware_ranking_applied : Bool
  status : String
  error : Option String
deriving DecidableEq

/-- Embedding of evaluate_search_results_with_inventory (llm_evaluator.py
lines 345-414) downstream of the network call: the llm_response argument
stands for the value returned by query_ollama.  A truthy parsed payload gives
the success record (with inventory-aware post-ranking when enabled and the
evaluations list is nonempty); anything else gives the single error record. -/
def evaluate_search_results_with_inventory (query : String) (results : List ProductEntry)
    (search_type : Option String) (model : String) (apply_post_ranking : Bool)
    (llm_response : LLMResponse) : EvalOutcome :=
  let st := search_type.getD (classify_search_type query)
  let errorOutcome : EvalOutcome :=
    { query := query, search_type := st, model_used := model, evaluations := [],
      ranking_summary := none, inventory_aware_ranking_applied := false,
      status := "error", error := some "Failed to parse LLM response" }
  match parse_enhanced_llm_response llm_response with
  | some payload =>
    if jsonTruthy payload then
      let evaluations := payloadEvaluations payload
      let evaluations :=
        if apply_post_ranking && !evaluations.isEmpty then
          apply_inventory_aware_ranking evaluations results
        else evaluations
      { query := query, search_type := st, model_used := model,
        evaluations := evaluations,
        ranking_summary := some (payloadRankingSummary payload),
        inventory_aware_ranking_applied := apply_post_ranking,
        status := "success", error := none }
    else errorOutcome
  | none => errorOutcome

/-! ## The no-results check (scraper.py lines 110-140) -/

/-- A DOM element found by a no-results selector: its visibility and raw text. -/
structure PageElement where
  displayed : Bool
  text : String
deriving DecidableEq

/-- The five string indicators of the no-results indicator list
(scraper.py lines 119-126); the list's sixth entry is not a string, see
check_indicators. -/
def no_results_phrases : List String :=
  ["0 results", "no results", "returned 0 results", "no items found", "no products found"]

/-- Embedding of the indicator loop (scraper.py lines 119-131) on one visible
element's lowercased text.  The sixth list entry is the Python expression
of an f-string and-ed with a membership test; the f-string is truthy, so the
entry is the Boolean of whether "0" occurs in the text.  When the loop reaches
it and it is True, evaluating the membership of that Boolean in the text
raises TypeError, modelled as Except.error; when it is False the loop just
ends. -/
def check_indicators (element_text : List Char) : List String → Except Unit Bool
  | [] =>
    if containsSub "0".toList element_text then Except.error () else Except.ok false
  | p :: ps =>
    if containsSub p.toList element_text then Except.ok true
    else check_indicators element_text ps

/-- Embedding of check_for_no_results_with_config (scraper.py lines 110-140).
The page is embedded as the list of lookup results of the configured
no-results selectors: none models NoSuchElementException, which the inner
handler turns into continue.  A TypeError escaping the indicator loop is
caught by the outer handler, which returns False for the whole check;
remaining selectors are then never examined. -/
def check_for_no_results_with_config (found : List (Option PageElement))
    (search_term : String) : Bool :=
  match found with
  | [] => false
  | none :: rest => check_for_no_results_with_config rest search_term
  | some el :: rest =>
    if el.displayed then
      match check_indicators (lowerList el.text.toList) no_results_phrases with
      | .ok true => true
      | .ok false => check_for_no_results_with_config rest search_term
      | .error _ => false
    else check_for_no_results_with_config rest search_term

/-! ## Ranking pipeline lemmas -/

/-- add_inventory_data does not change the relevance field. -/
theorem add_inventory_data_relevance (orig : List ProductEntry) (e : EvalRecord) :
    (add_inventory_data orig e).relevance = e.relevance := by
  simp only [add_inventory_data]
  split <;> rfl

/-- add_inventory_data does not change the result_index field. -/
theorem add_inventory_data_result_index (orig : List ProductEntry) (e : EvalRecord) :
    (add_inventory_data orig e).result_index = e.result_index := by
  simp only [add_inventory_data]
  split <;> rfl

/-- add_inventory_data does not change the effective relevance label. -/
theorem relevanceOf_add_inventory_data (orig : List ProductEntry) (e : EvalRecord) :
    relevanceOf (add_inventory_data orig e) = relevanceOf e := by
  unfold relevanceOf
  rw [add_inventory_data_relevance]

/-- Concatenating the filters of two mutually exclusive predicates permutes the
filter of their disjunction. -/
theorem perm_filter_append_filter {α : Type} (p q : α → Bool) (l : List α)
    (h : ∀ a, ¬(p a = true ∧ q a = true)) :
    (l.filter p ++ l.filter q).Perm (l.filter (fun a => p a || q a)) := by
  induction l with
  | nil => simp
  | cons x xs ih =>
    cases hp : p x with
    | false =>
      cases hq : q x with
      | false => simpa [List.filter_cons, hp, hq] using ih
      | true =>
        simp only [List.filter_cons, hp, hq, Bool.false_or, if_true, if_false]
        exact (List.perm_middle).trans (ih.cons x)
    | true =>
      have hq : q x = false := by
        cases hqq : q x
        · rfl
        · exact absurd ⟨hp, hqq⟩ (h x)
      simp only [List.filter_cons, hp, hq, Bool.true_or, if_true, if_false]
      exact ih.cons x

/-- A record joins one of the three buckets exactly when its effective
relevance label is High, Medium or Low. -/
def in_relevance_groups (e : EvalRecord) : Bool :=
  relevanceOf e == "High" || relevanceOf e == "Medium" || relevanceOf e == "Low"

/-- The reranked output is a permutation of the annotated input records whose
effective relevance label lies in the three buckets. -/
theorem apply_ranking_perm (evs : List EvalRecord) (orig : List ProductEntry) :
    (apply_inventory_aware_ranking evs orig).Perm
      ((evs.map (add_inventory_data orig)).filter in_relevance_groups) := by
  have dHM : ∀ e : EvalRecord,
      ¬((relevanceOf e == "High") = true ∧ (relevanceOf e == "Medium") = true) := by
    rintro e ⟨h1, h2⟩
    rw [beq_iff_eq] at h1 h2
    rw [h1] at h2
    exact absurd h2 (by decide)
  have dHML : ∀ e : EvalRecord,
      ¬((relevanceOf e == "High" || relevanceOf e == "Medium") = true
        ∧ (relevanceOf e == "Low") = true) := by
    rintro e ⟨h1, h2⟩
    rw [beq_iff_eq] at h2
    simp only [Bool.or_eq_true, beq_iff_eq] at h1
    rcases h1 with h' | h' <;> (rw [h2] at h'; exact absurd h' (by decide))
  simp only [apply_inventory_aware_ranking]
  have base :
      (sortByQuantityDesc ((evs.map (add_inventory_data orig)).filter
          (fun e => relevanceOf e == "High"))
        ++ sortByQuantityDesc ((evs.map (add_inventory_data orig)).filter
          (fun e => relevanceOf e == "Medium"))
        ++ sortByQuantityDesc ((evs.map (add_inventory_data orig)).filter
          (fun e => relevanceOf e == "Low"))).Perm
      (((evs.map (add_inventory_data orig)).filter (fun e => relevanceOf e == "High")
        ++ (evs.map (add_inventory_data orig)).filter (fun e => relevanceOf e == "Medium"))
        ++ (evs.map (add_inventory_data orig)).filter (fun e => relevanceOf e == "Low")) :=
    ((List.perm_insertionSort _ _).append (List.perm_insertionSort _ _)).append
      (List.perm_insertionSort _ _)
  have h12 := perm_filter_append_filter (fun e => relevanceOf e == "High")
    (fun e => relevanceOf e == "Medium") (evs.map (add_inventory_data orig)) dHM
  have h123 := perm_filter_append_filter
    (fun e => relevanceOf e == "High" || relevanceOf e == "Medium")
    (fun e => relevanceOf e == "Low") (evs.map (add_inventory_data orig)) dHML
  exact base.trans ((h12.append (List.Perm.refl _)).trans h123)

/-- Membership in the reranked output: exactly the annotated input records
whose effective label is one of the three buckets. -/
theorem mem_apply_ranking (x : EvalRecord) (evs : List EvalRecord) (orig : List ProductEntry) :
    x ∈ apply_inventory_aware_ranking evs orig ↔
      x ∈ evs.map (add_inventory_data orig) ∧ in_relevance_groups x = true := by
  rw [(apply_ranking_perm evs orig).mem_iff, List.mem_filter]

/-! ## Claims about apply_inventory_aware_ranking -/

/-- C1, counterexample: a record whose relevance label is present but outside
the three tiers is silently dropped by apply_inventory_aware_ranking, so the
output multiset of result_index values is not the input one. -/
theorem c1_counterexample :
    ¬ (((apply_inventory_aware_ranking
          [{ relevance := some "Somewhat Relevant", result_index := some 0 }]
          [{ quantity := some "7" }]).map (fun e => e.result_index)).Perm
        ([({ relevance := some "Somewhat Relevant", result_index := some 0 } : EvalRecord)].map
          (fun e => e.result_index))) := by
  intro h
  have h0 : apply_inventory_aware_ranking
      [{ relevance := some "Somewhat Relevant", result_index := some 0 }]
      [{ quantity := some "7" }] = ([] : List EvalRecord) := by decide
  rw [h0] at h
  simpa using h.length_eq

/-- C1 (amended): when every record's effective relevance label (the label,
defaulting to "Low" when missing) is High, Medium or Low, the reranked output
contains exactly the same multiset of result_index values as the input: no
record is lost and none is duplicated. -/
theorem c1_reranking_preserves_indices (evs : List EvalRecord) (orig : List ProductEntry)
    (h : ∀ e ∈ evs, relevanceOf e = "High" ∨ relevanceOf e = "Medium" ∨ relevanceOf e = "Low") :
    ((apply_inventory_aware_ranking evs orig).map (fun e => e.result_index)).Perm
      (evs.map (fun e => e.result_index)) := by
  have hp := (apply_ranking_perm evs orig).map (fun e => e.result_index)
  have hfe : (evs.map (add_inventory_data orig)).filter in_relevance_groups
      = evs.map (add_inventory_data orig) := by
    rw [List.filter_eq_self]
    intro a ha
    rcases List.mem_map.mp ha with ⟨e, he, rfl⟩
    have h3 := h e he
    unfold in_relevance_groups
    rw [relevanceOf_add_inventory_data]
    rcases h3 with h' | h' | h' <;> simp [h']
  rw [hfe, List.map_map] at hp
  have hfun : ((fun e : EvalRecord => e.result_index) ∘ add_inventory_data orig)
      = fun e : EvalRecord => e.result_index :=
    funext fun e => add_inventory_data_result_index orig e
  rwa [hfun] at hp

/-- C1, witness: a two-record input (one explicit High, one missing label)
satisfies the hypothesis and the permutation conclusion. -/
theorem c1_reranking_preserves_indices_witness :
    (∀ e ∈ [({ relevance := some "High", result_index := some 1 } : EvalRecord),
            { relevance := none, result_index := some 0 }],
        relevanceOf e = "High" ∨ relevanceOf e = "Medium" ∨ relevanceOf e = "Low")
    ∧ ((apply_inventory_aware_ranking
          [{ relevance := some "High", result_index := some 1 },
           { relevance := none, result_index := some 0 }]
          [{ quantity := some "3" }, { quantity := some "9" }]).map
          (fun e => e.result_index)).Perm
        ([({ relevance := some "High", result_index := some 1 } : EvalRecord),
          { relevance := none, result_index := some 0 }].map (fun e => e.result_index)) :=
  ⟨by decide, c1_reranking_preserves_indices _ _ (by decide)⟩

/-- C2, counterexample: a record with the out-of-vocabulary label "Irrelevant"
does not appear in the reranked output at all (the output is empty), contrary
to the claim that it is placed in the Low bucket. -/
theorem c2_counterexample :
    apply_inventory_aware_ranking
      [{ relevance := some "Irrelevant", result_index := some 0 }]
      [{ quantity := some "5" }] = [] := by decide

/-- C2 (amended): a record with a missing relevance label is treated as Low
and appears in the reranked output; a record whose label is present but
outside the set of the three tier names joins no bucket and is dropped from
the output. -/
theorem c2_unknown_label_dropped (evs : List EvalRecord) (orig : List ProductEntry)
    (e : EvalRecord) :
    (e.relevance = none → e ∈ evs →
        add_inventory_data orig e ∈ apply_inventory_aware_ranking evs orig)
    ∧ (∀ s, e.relevance = some s → s ≠ "High" → s ≠ "Medium" → s ≠ "Low" →
        add_inventory_data orig e ∉ apply_inventory_aware_ranking evs orig) := by
  constructor
  · intro hnone hmem
    rw [mem_apply_ranking]
    refine ⟨List.mem_map_of_mem _ hmem, ?_⟩
    unfold in_relevance_groups
    rw [relevanceOf_add_inventory_data]
    unfold relevanceOf
    rw [hnone]
    decide
  · intro s hs h1 h2 h3 hmem
    rw [mem_apply_ranking] at hmem
    rcases hmem with ⟨-, hg⟩
    unfold in_relevance_groups at hg
    rw [relevanceOf_add_inventory_data] at hg
    unfold relevanceOf at hg
    rw [hs] at hg
    simp only [Option.getD_some, Bool.or_eq_true, beq_iff_eq] at hg
    rcases hg with (h' | h') | h'
    · exact h1 h'
    · exact h2 h'
    · exact h3 h'

/-- C2, witness: a missing-label record is kept in the output, and a record
labelled "Somewhat" is dropped. -/
theorem c2_unknown_label_dropped_witness :
    add_inventory_data [] { relevance := none, result_index := some 0 }
        ∈ apply_inventory_aware_ranking [{ relevance := none, result_index := some 0 }] []
    ∧ add_inventory_data [] { relevance := some "Somewhat", result_index := some 0 }
        ∉ apply_inventory_aware_ranking
            [{ relevance := some "Somewhat", result_index := some 0 }] [] :=
  ⟨(c2_unknown_label_dropped _ _ _).1 rfl (by simp),
   (c2_unknown_label_dropped _ _ _).2 "Somewhat" rfl (by decide) (by decide) (by decide)⟩

/-- C10: a record whose result_index is at or beyond the length of the original
results list is annotated with parsed quantity 0 and status "Unknown" (no
out-of-range access can occur, the lookup is guarded), and such a record is
still placed in its relevance bucket: it appears in the reranked output
whenever its effective label is one of the three tiers. -/
theorem c10_out_of_range_index_kept (evs : List EvalRecord) (orig : List ProductEntry)
    (e : EvalRecord) (hrange : orig.length ≤ e.result_index.getD 0) :
    add_inventory_data orig e
      = { e with parsed_quantity := some 0, inventory_status_parsed := some "Unknown" }
    ∧ (e ∈ evs → in_relevance_groups e = true →
        ({ e with parsed_quantity := some 0, inventory_status_parsed := some "Unknown" }
          : EvalRecord) ∈ apply_inventory_aware_ranking evs orig) := by
  have hadd : add_inventory_data orig e
      = { e with parsed_quantity := some 0, inventory_status_parsed := some "Unknown" } := by
    simp only [add_inventory_data]
    rw [dif_neg (Nat.not_lt.mpr hrange)]
  refine ⟨hadd, fun hmem hrel => ?_⟩
  rw [← hadd, mem_apply_ranking]
  refine ⟨List.mem_map_of_mem _ hmem, ?_⟩
  unfold in_relevance_groups at hrel ⊢
  rw [relevanceOf_add_inventory_data]
  exact hrel

/-- C10, witness: a High record with result_index 5 against an empty results
list is annotated 0/"Unknown" and kept in the output. -/
theorem c10_out_of_range_index_kept_witness :
    ([] : List ProductEntry).length
        ≤ (({ relevance := some "High", result_index := some 5 } : EvalRecord).result_index.getD 0)
    ∧ ({ relevance := some "High", result_index := some 5, parsed_quantity := some 0,
          inventory_status_parsed := some "Unknown" } : EvalRecord)
        ∈ apply_inventory_aware_ranking
            [{ relevance := some "High", result_index := some 5 }] [] := by
  refine ⟨by decide, ?_⟩
  exact (c10_out_of_range_index_kept
      [{ relevance := some "High", result_index := some 5 }] []
      { relevance := some "High", result_index := some 5 } (by decide)).2 (by simp) (by decide)

/-- Rank of a tier label in the output order High, Medium, Low. -/
def tierRank (s : String) : Nat :=
  if s = "High" then 0 else if s = "Medium" then 1 else if s = "Low" then 2 else 3

/-- Every record of a sorted tier bucket carries that tier's label. -/
theorem relevanceOf_of_mem_sort_filter {t : String} {A : List EvalRecord} {x : EvalRecord}
    (hx : x ∈ sortByQuantityDesc (A.filter (fun e => relevanceOf e == t))) :
    relevanceOf x = t := by
  simp only [sortByQuantityDesc] at hx
  rw [List.mem_insertionSort] at hx
  exact beq_iff_eq.mp (List.mem_filter.mp hx).2

/-- Tiers appear in blocks: along the reranked output the tier rank never
decreases (all High records precede all Medium records, which precede all
Low records). -/
theorem apply_ranking_tier_blocks (evs : List EvalRecord) (orig : List ProductEntry) :
    (apply_inventory_aware_ranking evs orig).Pairwise
      (fun a b => tierRank (relevanceOf a) ≤ tierRank (relevanceOf b)) := by
  simp only [apply_inventory_aware_ranking]
  refine List.pairwise_append.mpr ⟨List.pairwise_append.mpr ⟨?_, ?_, ?_⟩, ?_, ?_⟩
  · exact List.pairwise_of_forall_mem_list fun a ha b hb => by
      rw [relevanceOf_of_mem_sort_filter ha, relevanceOf_of_mem_sort_filter hb]
  · exact List.pairwise_of_forall_mem_list fun a ha b hb => by
      rw [relevanceOf_of_mem_sort_filter ha, relevanceOf_of_mem_sort_filter hb]
  · intro a ha b hb
    rw [relevanceOf_of_mem_sort_filter ha, relevanceOf_of_mem_sort_filter hb]
    decide
  · exact List.pairwise_of_forall_mem_list fun a ha b hb => by
      rw [relevanceOf_of_mem_sort_filter ha, relevanceOf_of_mem_sort_filter hb]
  · intro a ha b hb
    rw [relevanceOf_of_mem_sort_filter hb]
    rcases List.mem_append.mp ha with h' | h' <;>
      rw [relevanceOf_of_mem_sort_filter h'] <;> decide

/-- Within a tier the reranked output is descending in parsed quantity: for
any two output positions in order, equal tier labels force the earlier record
to carry at least the later one's quantity. -/
theorem apply_ranking_tier_sorted (evs : List EvalRecord) (orig : List ProductEntry) :
    (apply_inventory_aware_ranking evs orig).Pairwise
      (fun a b => relevanceOf a = relevanceOf b → parsedQty b ≤ parsedQty a) := by
  simp only [apply_inventory_aware_ranking]
  have hsorted : ∀ l : List EvalRecord,
      (sortByQuantityDesc l).Pairwise
        (fun a b => relevanceOf a = relevanceOf b → parsedQty b ≤ parsedQty a) := by
    intro l
    have h2 : (sortByQuantityDesc l).Pairwise inventoryLe :=
      List.sorted_insertionSort inventoryLe l
    refine h2.imp ?_
    intro a b hab _
    exact hab
  refine List.pairwise_append.mpr ⟨List.pairwise_append.mpr
      ⟨hsorted _, hsorted _, ?_⟩, hsorted _, ?_⟩
  · intro a ha b hb heq
    rw [relevanceOf_of_mem_sort_filter ha, relevanceOf_of_mem_sort_filter hb] at heq
    exact absurd heq (by decide)
  · intro a ha b hb heq
    rw [relevanceOf_of_mem_sort_filter hb] at heq
    rcases List.mem_append.mp ha with h' | h' <;>
      · rw [relevanceOf_of_mem_sort_filter h'] at heq
        exact absurd heq (by decide)

/-- Stability: two annotated records of the same (bucketed) tier with equal
parsed quantity appear in the reranked output in their input relative order. -/
theorem apply_ranking_stable (evs : List EvalRecord) (orig : List ProductEntry)
    (a b : EvalRecord) (hrel : relevanceOf a = relevanceOf b)
    (hq : parsedQty a = parsedQty b)
    (hsub : [a, b].Sublist (evs.map (add_inventory_data orig)))
    (hval : relevanceOf a = "High" ∨ relevanceOf a = "Medium" ∨ relevanceOf a = "Low") :
    [a, b].Sublist (apply_inventory_aware_ranking evs orig) := by
  simp only [apply_inventory_aware_ranking]
  have key : ∀ t : String, relevanceOf a = t →
      [a, b].Sublist (sortByQuantityDesc
        ((evs.map (add_inventory_data orig)).filter (fun e => relevanceOf e == t))) := by
    intro t ht
    have hpa : (relevanceOf a == t) = true := beq_iff_eq.mpr ht
    have hpb : (relevanceOf b == t) = true := beq_iff_eq.mpr (hrel ▸ ht)
    have hfil : [a, b].filter (fun e => relevanceOf e == t) = [a, b] := by
      simp [List.filter_cons, hpa, hpb]
    have h1 : [a, b].Sublist
        ((evs.map (add_inventory_data orig)).filter (fun e => relevanceOf e == t)) :=
      hfil ▸ hsub.filter (fun e => relevanceOf e == t)
    simp only [sortByQuantityDesc]
    exact List.pair_sublist_insertionSort (Nat.le_of_eq hq.symm) h1
  rcases hval with ht | ht | ht
  · exact ((key "High" ht).trans (List.sublist_append_left _ _)).trans
      (List.sublist_append_left _ _)
  · exact ((key "Medium" ht).trans (List.sublist_append_right _ _)).trans
      (List.sublist_append_left _ _)
  · exact (key "Low" ht).trans (List.sublist_append_right _ _)

/-- The three entries of the end-to-end scenario: quantities "0", "500", "2". -/
def c3_entries : List ProductEntry :=
  [{ quantity := some "0" }, { quantity := some "500" }, { quantity := some "2" }]

/-- The scenario evaluations: all three results tagged High by the model. -/
def c3_evaluations : List EvalRecord :=
  [{ relevance := some "High", result_index := some 0 },
   { relevance := some "High", result_index := some 1 },
   { relevance := some "High", result_index := some 2 }]

/-- C3 (confirmed): the reranked output is the High bucket, then Medium, then
Low (tier rank never decreases along the output); within a tier the parsed
quantities are descending; the sort is stable (same-tier records with equal
parsed quantity keep their input relative order); no record moves across tiers
because of quantity (its tier label is unchanged, as the pairwise statements
are phrased on the records' own labels); and in the end-to-end scenario of
three High-tagged entries with quantities "0", "500", "2" the reranked order
by original index is 1, 2, 0. -/
theorem c3_tier_blocks_sorted_stable (evs : List EvalRecord) (orig : List ProductEntry) :
    ((apply_inventory_aware_ranking evs orig).Pairwise
        (fun a b => tierRank (relevanceOf a) ≤ tierRank (relevanceOf b)))
    ∧ ((apply_inventory_aware_ranking evs orig).Pairwise
        (fun a b => relevanceOf a = relevanceOf b → parsedQty b ≤ parsedQty a))
    ∧ (∀ a b, relevanceOf a = relevanceOf b → parsedQty a = parsedQty b →
        [a, b].Sublist (evs.map (add_inventory_data orig)) →
        (relevanceOf a = "High" ∨ relevanceOf a = "Medium" ∨ relevanceOf a = "Low") →
        [a, b].Sublist (apply_inventory_aware_ranking evs orig))
    ∧ (apply_inventory_aware_ranking c3_evaluations c3_entries).map (fun e => e.result_index)
        = [some 1, some 2, some 0] :=
  ⟨apply_ranking_tier_blocks evs orig, apply_ranking_tier_sorted evs orig,
   fun a b h1 h2 h3 h4 => apply_ranking_stable evs orig a b h1 h2 h3 h4, by decide⟩

/-- Two equal-quantity High records used to witness stability. -/
def c3_tie_a : EvalRecord := { relevance := some "High", result_index := some 0 }

/-- Second record of the stability witness pair. -/
def c3_tie_b : EvalRecord := { relevance := some "High", result_index := some 1 }

/-- Entries giving both witness records the same parsed quantity. -/
def c3_tie_entries : List ProductEntry := [{ quantity := some "5" }, { quantity := some "5" }]

/-- C3, witness: the concrete scenario equality, plus the stability conclusion
on a concrete equal-quantity pair. -/
theorem c3_tier_blocks_sorted_stable_witness :
    ((apply_inventory_aware_ranking c3_evaluations c3_entries).map (fun e => e.result_index)
        = [some 1, some 2, some 0])
    ∧ [add_inventory_data c3_tie_entries c3_tie_a,
        add_inventory_data c3_tie_entries c3_tie_b].Sublist
        (apply_inventory_aware_ranking [c3_tie_a, c3_tie_b] c3_tie_entries) :=
  ⟨(c3_tier_blocks_sorted_stable [] []).2.2.2,
   (c3_tier_blocks_sorted_stable [c3_tie_a, c3_tie_b] c3_tie_entries).2.2.1
      (add_inventory_data c3_tie_entries c3_tie_a)
      (add_inventory_data c3_tie_entries c3_tie_b)
      (by decide) (by decide) (List.Sublist.refl _) (by decide)⟩

/-! ## Claims about classify_search_type -/

/-- Joining the words of a split recovers exactly the non-whitespace
characters, in order. -/
theorem splitWordsAux_join (l : List Char) :
    ∀ acc, (splitWordsAux l acc).flatten = acc.reverse ++ l.filter (fun c => !ws_char c) := by
  induction l with
  | nil =>
    intro acc
    cases acc with
    | nil => simp [splitWordsAux]
    | cons a as => simp [splitWordsAux]
  | cons c r ih =>
    intro acc
    by_cases hws : ws_char c = true
    · cases acc with
      | nil => simp [splitWordsAux, hws, ih, List.filter_cons]
      | cons a as => simp [splitWordsAux, hws, ih, List.filter_cons]
    · have hws' : ws_char c = false := by simpa using hws
      simp [splitWordsAux, hws', ih, List.filter_cons]

/-- Whitespace collapsing does not change the non-whitespace characters. -/
theorem collapseWsAux_filter (l : List Char) :
    ∀ b, (collapseWsAux b l).filter (fun c => !ws_char c)
      = l.filter (fun c => !ws_char c) := by
  induction l with
  | nil => intro b; rfl
  | cons c r ih =>
    intro b
    have hsp : ws_char ' ' = true := by decide
    by_cases hws : ws_char c = true
    · cases b <;> simp [collapseWsAux, hws, hsp, ih, List.filter_cons]
    · have hws' : ws_char c = false := by simpa using hws
      simp [collapseWsAux, hws', ih, List.filter_cons]

/-- Dropping leading whitespace does not change the non-whitespace characters. -/
theorem dropWhile_ws_filter (l : List Char) :
    (l.dropWhile ws_char).filter (fun c => !ws_char c)
      = l.filter (fun c => !ws_char c) := by
  induction l with
  | nil => rfl
  | cons c r ih =>
    by_cases hws : ws_char c = true
    · simp [List.dropWhile_cons, hws, ih, List.filter_cons]
    · have hws' : ws_char c = false := by simpa using hws
      simp [List.dropWhile_cons, hws', List.filter_cons]

/-- Stripping does not change the non-whitespace characters. -/
theorem stripWs_filter (l : List Char) :
    (stripWs l).filter (fun c => !ws_char c) = l.filter (fun c => !ws_char c) := by
  unfold stripWs
  rw [List.filter_reverse, dropWhile_ws_filter, List.filter_reverse, dropWhile_ws_filter,
    List.reverse_reverse]

/-- A whitespace character is never a part-number character. -/
theorem part_number_char_not_ws (c : Char) (h : ws_char c = true) :
    part_number_char c = false := by
  simp only [ws_char, Bool.or_eq_true, decide_eq_true_eq] at h
  rcases h with ((((h | h) | h) | h) | h) | h <;> subst h <;> decide

/-- A part-number character is never whitespace. -/
theorem part_number_char_ws_false (c : Char) (h : part_number_char c = true) :
    ws_char c = false := by
  cases hwc : ws_char c
  · rfl
  · rw [part_number_char_not_ws c hwc] at h
    exact absurd h (by decide)

/-- When normalization leaves a single token, the part-number test on the whole
query agrees with the test on that token. -/
theorem any_part_char_single_word (q : String) (w : List Char)
    (hw : splitWords (stripWs (collapseWsAux false q.toList)) = [w]) :
    q.toList.any part_number_char = w.any part_number_char := by
  have h1 : (splitWords (stripWs (collapseWsAux false q.toList))).flatten
      = (stripWs (collapseWsAux false q.toList)).filter (fun c => !ws_char c) := by
    unfold splitWords
    simpa using splitWordsAux_join (stripWs (collapseWsAux false q.toList)) []
  rw [hw] at h1
  have h2 : w = q.toList.filter (fun c => !ws_char c) := by
    calc w = [w].flatten := by simp
      _ = (stripWs (collapseWsAux false q.toList)).filter (fun c => !ws_char c) := h1
      _ = (collapseWsAux false q.toList).filter (fun c => !ws_char c) := stripWs_filter _
      _ = q.toList.filter (fun c => !ws_char c) := collapseWsAux_filter _ false
  rw [h2, List.any_filter]
  congr 1
  funext c
  cases hc : part_number_char c
  · simp [hc]
  · simp [hc, part_number_char_ws_false c hc]

/-- C7 (confirmed): classify_search_type returns "multiple_terms" when
whitespace normalization leaves more than one token; on a single token it
returns "part_number" exactly when the token contains a digit, hyphen or
slash, and "english_word" otherwise; and the four documented examples
evaluate as specified.  The function is a pure function of the query. -/
theorem c7_classify_search_type (q : String) :
    ((splitWords (stripWs (collapseWsAux false q.toList))).length > 1 →
        classify_search_type q = "multiple_terms")
    ∧ (∀ w, splitWords (stripWs (collapseWsAux false q.toList)) = [w] →
        classify_search_type q =
          (if w.any part_number_char then "part_number" else "english_word"))
    ∧ classify_search_type "gasket" = "english_word"
    ∧ classify_search_type "BK608" = "part_number"
    ∧ classify_search_type "brake pads toyota camry" = "multiple_terms"
    ∧ classify_search_type "513188" = "part_number" := by
  refine ⟨?_, ?_, by decide, by decide, by decide, by decide⟩
  · intro h
    simp only [classify_search_type]
    rw [if_pos h]
  · intro w hw
    simp only [classify_search_type]
    rw [hw]
    rw [if_neg (by simp)]
    rw [any_part_char_single_word q w hw]

/-- C7, witness: a single plain token classifies as english_word via the
single-token branch, and a two-token query as multiple_terms. -/
theorem c7_classify_search_type_witness :
    classify_search_type "single"
        = (if ("single".toList).any part_number_char then "part_number" else "english_word")
    ∧ classify_search_type "two words" = "multiple_terms" :=
  ⟨(c7_classify_search_type "single").2.1 "single".toList (by decide),
   (c7_classify_search_type "two words").1 (by decide)⟩

/-! ## Claims about parse_inventory_quantity -/

/-- When no digit run is found, the string has no digit at all. -/
theorem firstDigitRun_none_no_digit (l : List Char) (h : firstDigitRun l = none) :
    ∀ c ∈ l, c.isDigit = false := by
  induction l with
  | nil => intro c hc; cases hc
  | cons x r ih =>
    intro c hc
    by_cases hx : x.isDigit = true
    · rw [firstDigitRun, if_pos hx] at h
      cases h
    · have hx' : x.isDigit = false := by simpa using hx
      rw [firstDigitRun, if_neg (by simp [hx'])] at h
      cases hc with
      | head => exact hx'
      | tail _ hc => exact ih h c hc

/-- A one-character substring occurrence is just membership. -/
theorem mem_of_containsSub_singleton (c : Char) (l : List Char)
    (h : containsSub [c] l = true) : c ∈ l := by
  induction l with
  | nil => cases h
  | cons x r ih =>
    rw [containsSub, Bool.or_eq_true] at h
    rcases h with h | h
    · simp only [List.isPrefixOf, Bool.and_eq_true, beq_iff_eq] at h
      exact h.1 ▸ List.mem_cons_self x r
    · exact List.mem_cons_of_mem x (ih h)

/-- ASCII lowercasing never turns a non-digit into a digit. -/
theorem toLower_isDigit_false (c : Char) (h : c.isDigit = false) :
    (Char.toLower c).isDigit = false := by
  simp only [Char.toLower]
  split
  · rename_i hr
    obtain ⟨h65, h90⟩ := hr
    generalize c.toNat = n at h65 h90
    interval_cases n <;> decide
  · exact h

/-- A digit-free string lowercases to a string without the character '0'. -/
theorem lower_no_zero (l : List Char) (h : ∀ c ∈ l, c.isDigit = false) :
    containsSub "0".toList (lowerList l) = false := by
  cases hc : containsSub "0".toList (lowerList l)
  · rfl
  · exfalso
    have h0 : ('0' : Char) ∈ lowerList l := mem_of_containsSub_singleton '0' (lowerList l) hc
    rcases List.mem_map.mp h0 with ⟨c, hcl, hlow⟩
    have : (Char.toLower c).isDigit = false := toLower_isDigit_false c (h c hcl)
    rw [hlow] at this
    exact absurd this (by decide)

/-- C8 (confirmed): parse_inventory_quantity returns the value of the first
digit run with status Out of Stock for 0, Low Stock for 1 to 4, Available for
5 or more; with no digit run it falls back to keyword matching on the
lowercased string ("out of stock"/"unavailable", then "low stock"/"limited",
then "in stock"/"available") and otherwise returns (0, Unknown) — the dead
"0" keyword never fires since a digit-free string contains no '0'; and the
four documented examples evaluate as specified. -/
theorem c8_parse_inventory_quantity (quantity_str : String) :
    (∀ ds, firstDigitRun quantity_str.toList = some ds →
        parse_inventory_quantity quantity_str =
          (digitsToNat ds,
            if digitsToNat ds = 0 then "Out of Stock"
            else if digitsToNat ds < 5 then "Low Stock" else "Available"))
    ∧ (firstDigitRun quantity_str.toList = none →
        parse_inventory_quantity quantity_str =
          (if containsSub "out of stock".toList (lowerList quantity_str.toList)
              || containsSub "unavailable".toList (lowerList quantity_str.toList) then
            (0, "Out of Stock")
          else if containsSub "low stock".toList (lowerList quantity_str.toList)
              || containsSub "limited".toList (lowerList quantity_str.toList) then
            (1, "Low Stock")
          else if containsSub "in stock".toList (lowerList quantity_str.toList)
              || containsSub "available".toList (lowerList quantity_str.toList) then
            (999, "Available")
          else (0, "Unknown")))
    ∧ parse_inventory_quantity "0" = (0, "Out of Stock")
    ∧ parse_inventory_quantity "2" = (2, "Low Stock")
    ∧ parse_inventory_quantity "500" = (500, "Available")
    ∧ parse_inventory_quantity "N/A" = (0, "Unknown") := by
  refine ⟨?_, ?_, by decide, by decide, by decide, by decide⟩
  · intro ds hds
    have h1 : quantity_str ≠ "" := by
      intro he
      rw [he] at hds
      rw [show firstDigitRun "".toList = none from rfl] at hds
      cases hds
    have h2 : quantity_str ≠ "N/A" := by
      intro he
      rw [he] at hds
      rw [show firstDigitRun "N/A".toList = none by decide] at hds
      cases hds
    simp only [parse_inventory_quantity]
    rw [if_neg (by simp [h1, h2])]
    rw [hds]
    by_cases h0 : digitsToNat ds = 0
    · simp [h0]
    · by_cases h5 : digitsToNat ds < 5
      · simp [h0, h5]
      · simp [h0, h5]
  · intro hnone
    by_cases he : quantity_str = ""
    · subst he; decide
    · by_cases hna : quantity_str = "N/A"
      · subst hna; decide
      · have hz : containsSub "0".toList (lowerList quantity_str.toList) = false :=
          lower_no_zero _ (firstDigitRun_none_no_digit _ hnone)
        simp only [parse_inventory_quantity]
        rw [if_neg (by simp [he, hna])]
        rw [hnone]
        rw [hz]
        simp only [Bool.or_false]

/-- C8, witness: a digit-run input and a keyword-only input, with the
thresholds evaluated. -/
theorem c8_parse_inventory_quantity_witness :
    firstDigitRun "Qty: 12".toList = some ['1', '2']
    ∧ parse_inventory_quantity "Qty: 12" = (12, "Available")
    ∧ firstDigitRun "limited".toList = none
    ∧ parse_inventory_quantity "limited" = (1, "Low Stock") := by
  refine ⟨by decide, ?_, by decide, ?_⟩
  · exact ((c8_parse_inventory_quantity "Qty: 12").1 ['1', '2'] (by decide)).trans (by decide)
  · exact ((c8_parse_inventory_quantity "limited").2.1 (by decide)).trans (by decide)

/-! ## Claim about parse_enhanced_llm_response (JSON extraction) -/

/-- A response text of the claimed shape: prose, then a JSON object whose
"evaluations" array holds one evaluation object and which has a trailing
comma before a closing bracket, then prose. -/
def c4_response_text : String :=
  "Here is my evaluation: \x7b\"evaluations\": [\x7b\"result_index\": 0, \"relevance\": \"High\"\x7d,]\x7d Hope this helps!"

/-- The well-formed JSON block embedded in c4_response_text. -/
def c4_json_block : String :=
  "\x7b\"evaluations\": [\x7b\"result_index\": 0, \"relevance\": \"High\"\x7d,]\x7d"

/-- C4: on the claimed input shape the parser fails.  The lazy regex captures
only up to the first closing brace after the "evaluations" anchor — the end
of the first evaluation object — so the captured fragment is unbalanced and
json.loads rejects it, and parse_enhanced_llm_response returns None; yet the
full embedded block is perfectly recoverable (it parses once the trailing
comma is stripped), so the failure is the extraction's, not the input's. -/
theorem c4_lazy_regex_truncates_extraction :
    parse_enhanced_llm_response { response := some c4_response_text } = none
    ∧ find_json_block c4_response_text.toList
        = some "\x7b\"evaluations\": [\x7b\"result_index\": 0, \"relevance\": \"High\"\x7d".toList
    ∧ jsonParse (String.mk (stripTrailingCommas c4_json_block.toList))
        = some (.obj [("evaluations",
            .arr [.obj [("result_index", .num 0), ("relevance", .str "High")]])]) :=
  ⟨rfl, by decide, rfl⟩

/-! ## Claim about query_ollama -/

/-- When every attempt in range fails, the retry loop consumes all remaining
attempts and returns the failure marker. -/
theorem query_ollama_go_all_fail (attempts : Nat → AttemptOutcome) (max_retries : Nat) :
    ∀ remaining i, (∀ j, j < remaining → (attempts (i + j)).isSuccess = false) →
      query_ollama_go attempts max_retries i remaining
        = ({ error := some ("Failed after " ++ toString max_retries ++ " attempts") },
            remaining) := by
  intro remaining
  induction remaining with
  | zero => intro i _; rfl
  | succ rem ih =>
    intro i hfail
    have h0 : (attempts i).isSuccess = false := by simpa using hfail 0 (Nat.succ_pos rem)
    have hrest : ∀ j, j < rem → (attempts (i + 1 + j)).isSuccess = false := by
      intro j hj
      have h' := hfail (j + 1) (by omega)
      have heq : i + (j + 1) = i + 1 + j := by omega
      rwa [heq] at h'
    have hih := ih (i + 1) hrest
    cases hat : attempts i with
    | success body =>
      rw [hat] at h0
      simp [AttemptOutcome.isSuccess] at h0
    | httpError s t =>
      simp only [query_ollama_go, hat, hih]
    | transportError m =>
      simp only [query_ollama_go, hat, hih]

/-- C5 (confirmed): against a service that fails every attempt (non-200 status
or transport error), query_ollama with max_retries n makes exactly n request
attempts and then returns the failure-marker dictionary carrying the attempt
count; being a total function of the attempt oracle, it raises nothing. -/
theorem c5_query_ollama_exhausts_retries (attempts : Nat → AttemptOutcome) (n : Nat)
    (h1 : 1 ≤ n) (h2 : ∀ i, i < n → (attempts i).isSuccess = false) :
    query_ollama attempts n
      = ({ error := some ("Failed after " ++ toString n ++ " attempts") }, n) := by
  unfold query_ollama
  exact query_ollama_go_all_fail attempts n n 0 (fun j hj => by simpa using h2 j hj)

/-- C5, witness: three attempts against a service that always returns status 500. -/
theorem c5_query_ollama_exhausts_retries_witness :
    (1 ≤ 3 ∧ ∀ i, i < 3 →
        ((fun _ => AttemptOutcome.httpError 500 "server error") i).isSuccess = false)
    ∧ query_ollama (fun _ => AttemptOutcome.httpError 500 "server error") 3
        = ({ error := some ("Failed after " ++ toString 3 ++ " attempts") }, 3) :=
  ⟨⟨by decide, by decide⟩,
   c5_query_ollama_exhausts_retries (fun _ => AttemptOutcome.httpError 500 "server error") 3
      (by decide) (by decide)⟩

/-! ## Claim about failure surfacing in evaluate_search_results_with_inventory -/

/-- C6, counterexample: a transient failure (the retry loop's error marker)
and a malformed-output failure (a 200 reply whose text holds no payload)
produce identical status and error values in the returned record — the two
failure modes are conflated, refuting the claimed distinction. -/
theorem c6_counterexample :
    ((evaluate_search_results_with_inventory "gasket" [] none "gemma3" true
        { error := some "Failed after 3 attempts" }).status,
      (evaluate_search_results_with_inventory "gasket" [] none "gemma3" true
        { error := some "Failed after 3 attempts" }).error)
      = ((evaluate_search_results_with_inventory "gasket" [] none "gemma3" true
          { response := some "I am unable to evaluate these results." }).status,
        (evaluate_search_results_with_inventory "gasket" [] none "gemma3" true
          { response := some "I am unable to evaluate these results." }).error)
    ∧ (evaluate_search_results_with_inventory "gasket" [] none "gemma3" true
        { error := some "Failed after 3 attempts" }).status = "error" :=
  ⟨rfl, rfl⟩

/-- C6 (amended): every LLM response that fails to parse — the transient
failure marker and a 200 reply without a parseable payload alike — is
surfaced with one and the same record: status "error", error "Failed to
parse LLM response", empty evaluations; the two failure modes are conflated,
not distinct. -/
theorem c6_uniform_failure_record (query : String) (results : List ProductEntry)
    (search_type : Option String) (model : String) (apply_post_ranking : Bool)
    (llm_response : LLMResponse)
    (h : parse_enhanced_llm_response llm_response = none) :
    evaluate_search_results_with_inventory query results search_type model
        apply_post_ranking llm_response
      = { query := query, search_type := search_type.getD (classify_search_type query),
          model_used := model, evaluations := [], ranking_summary := none,
          inventory_aware_ranking_applied := false, status := "error",
          error := some "Failed to parse LLM response" } := by
  simp only [evaluate_search_results_with_inventory]
  rw [h]

/-- C6, witness: the transient failure marker parses to None and yields the
uniform error record. -/
theorem c6_uniform_failure_record_witness :
    parse_enhanced_llm_response { error := some "Failed after 3 attempts" } = none
    ∧ evaluate_search_results_with_inventory "gasket" [] none "gemma3" true
        { error := some "Failed after 3 attempts" }
      = { query := "gasket", search_type := "english_word", model_used := "gemma3",
          evaluations := [], ranking_summary := none,
          inventory_aware_ranking_applied := false, status := "error",
          error := some "Failed to parse LLM response" } :=
  ⟨rfl, (c6_uniform_failure_record "gasket" [] none "gemma3" true
      { error := some "Failed after 3 attempts" } rfl).trans (by decide)⟩

/-! ## Claim about the no-results check -/

/-- C9: the no-results check is not a set of independent substring checks.
A visible element matching "no results" alone makes the check return true;
but when an earlier selector matches a visible element whose text contains a
'0' yet none of the five phrases, the folded Boolean indicator raises
TypeError and the outer handler returns false for the whole check, so the
later matching element is never examined. -/
theorem c9_zero_aborts_no_results_check :
    check_for_no_results_with_config
        [some { displayed := true, text := "Error 404" },
         some { displayed := true, text := "No results found" }] "gasket" = false
    ∧ check_for_no_results_with_config
        [some { displayed := true, text := "No results found" }] "gasket" = true
    ∧ containsSub "no results".toList (lowerList "Error 404".toList) = false
    ∧ containsSub "0".toList (lowerList "Error 404".toList) = true :=
  ⟨by decide, by decide, by decide, by decide⟩
